import Mathlib

/-!
Verification of `Source/Engine/Graphics/GPUResourceState.h` (FlaxEngine):
a tracker of per-resource or per-subresource GPU access state.

Shallow embedding notes:
* `StateType` is an opaque, equality-compared template parameter; it is
  modelled by a type `S` with decidable equality and a distinguished
  `inv : S` standing for the `InvalidState` template argument.
* The bit-fields `_resourceState : 31` and `_allSubresourcesSame : 1` hold an
  opaque enum value and a boolean; the claims only compare these by equality,
  so they are modelled as a plain `S` and `Bool`.
* `Array<StateType>` lives outside the analyzed source; it is modelled as a
  `List S` with `Resize`/`SetAll`/`Count`/indexing as the obvious list
  operations.
* The embedding follows the `BUILD_DEBUG` configuration of the code, in which
  `Initialize` runs `_subresourceState.SetAll(InvalidState)` after the
  resize, `SetResourceState` poisons every array entry with `InvalidState`,
  and the promotion inside `SetSubresourceState` poisons `_resourceState`.
  This makes the contents left by `Resize(subresourceCount, false)` (which
  are uninitialized in release builds) deterministic; the dormant storage is
  never read by the operations, so the observable behavior is the same.
* `ASSERT(...)` statements are fail-fast preconditions; they appear as
  hypotheses of the theorems (and as side conditions of the reachability
  relation), not inside the operation bodies, which stay total.
-/

/-- State of a `GPUResourceState<StateType, InvalidState>` instance:
the three data members of the C++ class. -/
structure GPUResourceState (S : Type) where
  /-- `_resourceState` : the whole resource state (used only if
  `_allSubresourcesSame` is 1). -/
  resourceState : S
  /-- `_allSubresourcesSame` : 1 if `_resourceState` is valid (all
  subresources share one state), 0 if `_subresourceState` is valid. -/
  allSubresourcesSame : Bool
  /-- `_subresourceState` : the per-subresource state (used only if
  `_allSubresourcesSame` is 0). -/
  subresourceState : List S
deriving DecidableEq, Repr

namespace GPUResourceState

variable {S : Type} [DecidableEq S]

/-- The default constructor `GPUResourceState()`: `_resourceState(InvalidState),
_allSubresourcesSame(true)`, empty array. -/
def construct (inv : S) : GPUResourceState S :=
  { resourceState := inv, allSubresourcesSame := true, subresourceState := [] }

/-- `Initialize(subresourceCount, initialState, usePerSubresourceTracking)`:
allocates the per-subresource table only when tracking is requested and
there is more than one subresource, then sets the uniform state.
The trailing `.map (fun _ => inv)` is the `BUILD_DEBUG`
`_subresourceState.SetAll(InvalidState)` diagnostic fill. -/
def Initialize (inv : S) (t : GPUResourceState S) (subresourceCount : Nat)
    (initialState : S) (usePerSubresourceTracking : Bool) : GPUResourceState S :=
  let arr := if usePerSubresourceTracking ∧ 1 < subresourceCount then
      List.replicate subresourceCount inv
    else
      t.subresourceState
  { resourceState := initialState
    allSubresourcesSame := true
    subresourceState := arr.map (fun _ => inv) }

/-- The `ASSERT` of `Initialize`: `_subresourceState.IsEmpty() && subresourceCount > 0`. -/
def InitializePre (t : GPUResourceState S) (subresourceCount : Nat) : Prop :=
  t.subresourceState = [] ∧ 0 < subresourceCount

/-- `IsInitializated()`: `_resourceState != InvalidState || _subresourceState.HasItems()`. -/
def IsInitializated (inv : S) (t : GPUResourceState S) : Bool :=
  decide (t.resourceState ≠ inv) || !t.subresourceState.isEmpty

/-- `Release()`: `_resourceState = InvalidState; _subresourceState.Resize(0)`.
Note that `_allSubresourcesSame` is left untouched. -/
def Release (inv : S) (t : GPUResourceState S) : GPUResourceState S :=
  { t with resourceState := inv, subresourceState := [] }

/-- `AreAllSubresourcesSame()`: returns `_allSubresourcesSame`. -/
def AreAllSubresourcesSame (t : GPUResourceState S) : Bool :=
  t.allSubresourcesSame

/-- `GetSubresourcesCount()`: returns `_subresourceState.Count()`. -/
def GetSubresourcesCount (t : GPUResourceState S) : Nat :=
  t.subresourceState.length

/-- `CheckResourceState(state)`: uniform mode compares against
`_resourceState`; otherwise every entry of `_subresourceState` is checked
(the loop returns `false` at the first mismatching entry). -/
def CheckResourceState (t : GPUResourceState S) (state : S) : Bool :=
  if t.allSubresourcesSame then
    decide (state = t.resourceState)
  else
    t.subresourceState.all (fun x => decide (x = state))

/-- `GetSubresourceState(subresourceIndex)`: uniform mode returns
`_resourceState` no matter the index; otherwise reads the array entry.
The out-of-range read (an `ASSERT` failure in the source) is totalized with
`List.getD` whose default is never reached under the precondition. -/
def GetSubresourceState (inv : S) (t : GPUResourceState S)
    (subresourceIndex : Nat) : S :=
  if t.allSubresourcesSame then
    t.resourceState
  else
    t.subresourceState.getD subresourceIndex inv

/-- The `ASSERT` of `GetSubresourceState`, relevant only when the array is
the active representation. -/
def GetSubresourceStatePre (t : GPUResourceState S) (subresourceIndex : Nat) : Prop :=
  t.allSubresourcesSame = true ∨ subresourceIndex < t.subresourceState.length

/-- `SetResourceState(state)`: forces uniform mode; the
`.map (fun _ => inv)` is the `BUILD_DEBUG` loop poisoning every
`_subresourceState` entry with `InvalidState`. -/
def SetResourceState (inv : S) (t : GPUResourceState S) (state : S) :
    GPUResourceState S :=
  { resourceState := state
    allSubresourcesSame := true
    subresourceState := t.subresourceState.map (fun _ => inv) }

/-- `SetSubresourceState(subresourceIndex, state)`: the `-1` sentinel or a
table of length at most one delegates to `SetResourceState`; otherwise a
uniform tracker is first promoted (every entry receives `_resourceState`,
the mode flag flips, `_resourceState` is poisoned in `BUILD_DEBUG`), and the
indexed entry is written. -/
def SetSubresourceState (inv : S) (t : GPUResourceState S)
    (subresourceIndex : Int) (state : S) : GPUResourceState S :=
  if subresourceIndex = -1 ∨ t.subresourceState.length ≤ 1 then
    SetResourceState inv t state
  else
    let t' := if t.allSubresourcesSame then
        { resourceState := inv
          allSubresourcesSame := false
          subresourceState := t.subresourceState.map (fun _ => t.resourceState) }
      else t
    { t' with
      subresourceState := t'.subresourceState.set subresourceIndex.toNat state }

/-- The `ASSERT` of `SetSubresourceState` together with the implicit
requirement of the array write: either the sentinel, or a real in-range
index. -/
def SetSubresourceStatePre (t : GPUResourceState S) (subresourceIndex : Int) : Prop :=
  subresourceIndex = -1 ∨
    (0 ≤ subresourceIndex ∧ subresourceIndex < (t.subresourceState.length : Int))

/-- Tracker states reachable through the public operations, each mutating
call subject to its `ASSERT` precondition. -/
inductive Reachable (inv : S) : GPUResourceState S → Prop where
  | ctorStep : Reachable inv (construct inv)
  | initStep (t : GPUResourceState S) (n : Nat) (s0 : S) (tr : Bool)
      (ht : Reachable inv t) (hpre : InitializePre t n) :
      Reachable inv (Initialize inv t n s0 tr)
  | releaseStep (t : GPUResourceState S) (ht : Reachable inv t) :
      Reachable inv (Release inv t)
  | setResourceStep (t : GPUResourceState S) (s : S) (ht : Reachable inv t) :
      Reachable inv (SetResourceState inv t s)
  | setSubresourceStep (t : GPUResourceState S) (idx : Int) (s : S)
      (ht : Reachable inv t) (hpre : SetSubresourceStatePre t idx) :
      Reachable inv (SetSubresourceState inv t idx s)

end GPUResourceState

open GPUResourceState

/-- Every tracker state reachable through the public operations has a
per-subresource table of length 0 or at least 2, never exactly 1:
`Initialize` allocates only when `subresourceCount > 1`, `Release` clears to
0, and the other mutators preserve the length. -/
theorem reachable_length_ne_one {S : Type} [DecidableEq S] {inv : S}
    {t : GPUResourceState S} (h : Reachable inv t) :
    GetSubresourcesCount t ≠ 1 := by
  induction h with
  | ctorStep => simp [GetSubresourcesCount, GPUResourceState.construct]
  | initStep t n s0 tr ht hpre ih =>
      rcases hpre with ⟨hempty, -⟩
      unfold GetSubresourcesCount Initialize
      by_cases hc : tr = true ∧ 1 < n
      · simp only [if_pos hc, List.length_map, List.length_replicate]
        omega
      · simp [if_neg hc, hempty]
  | releaseStep t ht ih => simp [GetSubresourcesCount, Release]
  | setResourceStep t s ht ih =>
      simpa [GetSubresourcesCount, SetResourceState] using ih
  | setSubresourceStep t idx s ht hpre ih =>
      unfold GetSubresourcesCount SetSubresourceState
      by_cases hc : idx = -1 ∨ t.subresourceState.length ≤ 1
      · simpa [if_pos hc, SetResourceState, GetSubresourcesCount] using ih
      · cases hb : t.allSubresourcesSame <;>
          simpa [if_neg hc, hb, GetSubresourcesCount] using ih

/-- C1: starting from a fresh tracker, `Initialize(n, s0, true)` with `n > 1`
followed by `SetSubresourceState(k, s1)` at a real index `k < n` promotes
the tracker: `AreAllSubresourcesSame()` is `false`, subresource `k` reads
`s1`, and every other index `i < n` still reads `s0`. -/
theorem promotion_on_divergent_write {S : Type} [DecidableEq S]
    (inv s0 s1 : S) (n k : Nat) (hn : 1 < n) (hk : k < n) :
    AreAllSubresourcesSame
      (SetSubresourceState inv (Initialize inv (construct inv) n s0 true)
        (k : Int) s1) = false ∧
    GetSubresourceState inv
      (SetSubresourceState inv (Initialize inv (construct inv) n s0 true)
        (k : Int) s1) k = s1 ∧
    ∀ i, i < n → i ≠ k →
      GetSubresourceState inv
        (SetSubresourceState inv (Initialize inv (construct inv) n s0 true)
          (k : Int) s1) i = s0 := by
  have hinit : Initialize inv (construct inv) n s0 true
      = ⟨s0, true, List.replicate n inv⟩ := by
    simp [Initialize, construct, hn, List.map_replicate]
  have hcond : ¬((k : Int) = -1 ∨ (List.replicate n inv).length ≤ 1) := by
    simp [List.length_replicate]
    omega
  have hstep : SetSubresourceState inv (Initialize inv (construct inv) n s0 true)
      (k : Int) s1 = ⟨inv, false, (List.replicate n s0).set k s1⟩ := by
    rw [hinit]
    unfold SetSubresourceState
    rw [if_neg hcond]
    simp [List.map_replicate]
  rw [hstep]
  refine ⟨rfl, ?_, ?_⟩
  · have hk' : k < ((List.replicate n s0).set k s1).length := by
      simp [List.length_set, List.length_replicate, hk]
    show ((List.replicate n s0).set k s1).getD k inv = s1
    rw [List.getD_eq_getElem _ _ hk', List.getElem_set_self hk']
  · intro i hi hne
    have hi' : i < ((List.replicate n s0).set k s1).length := by
      simp [List.length_set, List.length_replicate, hi]
    show ((List.replicate n s0).set k s1).getD i inv = s0
    rw [List.getD_eq_getElem _ _ hi',
      List.getElem_set_ne (fun h => hne h.symm)]
    exact List.getElem_replicate _ _

/-- C1 witness: the promotion theorem instantiated at `n = 4`, `k = 2`,
`s0 = 1`, `s1 = 2` over `Nat` states with `InvalidState = 0`. -/
theorem promotion_on_divergent_write_witness :
    (1 < 4 ∧ 2 < 4) ∧
    (AreAllSubresourcesSame
      (SetSubresourceState 0 (Initialize 0 (construct (0 : Nat)) 4 1 true)
        ((2 : Nat) : Int) 2) = false ∧
    GetSubresourceState 0
      (SetSubresourceState 0 (Initialize 0 (construct (0 : Nat)) 4 1 true)
        ((2 : Nat) : Int) 2) 2 = 2 ∧
    ∀ i, i < 4 → i ≠ 2 →
      GetSubresourceState 0
        (SetSubresourceState 0 (Initialize 0 (construct (0 : Nat)) 4 1 true)
          ((2 : Nat) : Int) 2) i = 1) :=
  ⟨⟨by decide, by decide⟩,
    promotion_on_divergent_write 0 1 2 4 2 (by decide) (by decide)⟩

/-- C2 (amended): whenever the per-subresource table is the active
representation, or the table has at least one allocated entry,
`CheckResourceState(s)` is true exactly when `GetSubresourceState(i) = s`
for every index `i` below `GetSubresourcesCount()`. In uniform mode with an
unallocated table the quantification over `[0, allocatedCount)` is vacuous
while `CheckResourceState` still compares `s` against the uniform state, so
the equivalence needs this hypothesis. -/
theorem checkResourceState_iff_all_subresources {S : Type} [DecidableEq S]
    (inv : S) (t : GPUResourceState S) (s : S)
    (h : t.allSubresourcesSame = false ∨ 1 ≤ GetSubresourcesCount t) :
    CheckResourceState t s = true ↔
      ∀ i, i < GetSubresourcesCount t → GetSubresourceState inv t i = s := by
  cases hb : t.allSubresourcesSame with
  | true =>
      have hlen : 1 ≤ t.subresourceState.length := by
        rcases h with h | h
        · rw [hb] at h; exact absurd h (by simp)
        · exact h
      simp only [CheckResourceState, GetSubresourceState, GetSubresourcesCount,
        hb, if_true, decide_eq_true_eq]
      constructor
      · intro hs i _
        exact hs.symm
      · intro hall
        exact (hall 0 (by omega)).symm
  | false =>
      simp only [CheckResourceState, GetSubresourceState, GetSubresourcesCount,
        hb, Bool.false_eq_true, if_false, List.all_eq_true, decide_eq_true_eq]
      constructor
      · intro hall i hi
        rw [List.getD_eq_getElem _ _ hi]
        exact hall _ (List.getElem_mem hi)
      · intro hall x hx
        rcases List.mem_iff_getElem.mp hx with ⟨i, hi, rfl⟩
        have hgi := hall i hi
        rwa [List.getD_eq_getElem _ _ hi] at hgi

/-- C2 counterexample: after `Initialize(3, 5, false)` the tracker is in
uniform mode with an unallocated table (`GetSubresourcesCount() = 0`), so
the condition "`GetSubresourceState(i) = 7` for every `i` in `[0, 0)`" is
vacuously true, yet `CheckResourceState(7)` is `false` (the uniform state is
`5`). The claimed equivalence therefore fails on this reachable state. -/
theorem checkResourceState_vacuous_cex :
    CheckResourceState (Initialize 0 (construct (0 : Nat)) 3 5 false) 7 = false ∧
    GetSubresourcesCount (Initialize 0 (construct (0 : Nat)) 3 5 false) = 0 := by
  decide

/-- C2 witness: the amended equivalence instantiated at the promoted tracker
of the specification scenario (`Initialize(4, 1, true)` then
`SetSubresourceState(2, 2)`) and the probe state `1`. -/
theorem checkResourceState_iff_all_subresources_witness :
    ((SetSubresourceState 0 (Initialize 0 (construct (0 : Nat)) 4 1 true)
        2 2).allSubresourcesSame = false ∨
      1 ≤ GetSubresourcesCount
        (SetSubresourceState 0 (Initialize 0 (construct (0 : Nat)) 4 1 true) 2 2)) ∧
    (CheckResourceState
        (SetSubresourceState 0 (Initialize 0 (construct (0 : Nat)) 4 1 true) 2 2)
        1 = true ↔
      ∀ i, i < GetSubresourcesCount
          (SetSubresourceState 0 (Initialize 0 (construct (0 : Nat)) 4 1 true) 2 2) →
        GetSubresourceState 0
          (SetSubresourceState 0 (Initialize 0 (construct (0 : Nat)) 4 1 true) 2 2)
          i = 1) :=
  ⟨Or.inl (by decide),
    checkResourceState_iff_all_subresources 0 _ 1 (Or.inl (by decide))⟩

/-- C3 counterexample: promote a tracker (`Initialize(2, 5, true)` then
`SetSubresourceState(0, 7)`) and call `Release()`. The claim says the mode
returns to uniform so that `AreAllSubresourcesSame()` is `true`; the code
leaves `_allSubresourcesSame` untouched, so it is `false`. -/
theorem release_keeps_mode_cex :
    AreAllSubresourcesSame
      (Release 0 (SetSubresourceState 0
        (Initialize 0 (construct (0 : Nat)) 2 5 true) 0 7)) = false := by
  decide

/-- C3 (amended): `Release()` sets the uniform state slot to `InvalidState`
and empties the per-subresource array, and it is idempotent; but it leaves
the mode flag unchanged, so after releasing a per-subresource-mode tracker
`AreAllSubresourcesSame()` still returns `false`. -/
theorem release_spec {S : Type} [DecidableEq S] (inv : S)
    (t : GPUResourceState S) :
    (Release inv t).resourceState = inv ∧
    (Release inv t).subresourceState = [] ∧
    AreAllSubresourcesSame (Release inv t) = AreAllSubresourcesSame t ∧
    Release inv (Release inv t) = Release inv t := by
  simp [Release, AreAllSubresourcesSame]

/-- C4: on a reachable tracker already in per-subresource mode, writing any
state through `SetSubresourceState` at a real index `k < GetSubresourcesCount()`
never flips the mode back to uniform — even a write that makes all entries
equal again leaves `AreAllSubresourcesSame()` at `false`. (Reachability
matters: it rules out a table of length exactly 1, which would delegate to
`SetResourceState`.) -/
theorem setSubresourceState_no_demotion {S : Type} [DecidableEq S] (inv : S)
    (t : GPUResourceState S) (hr : Reachable inv t)
    (hm : t.allSubresourcesSame = false)
    (k : Nat) (hk : k < GetSubresourcesCount t) (s : S) :
    AreAllSubresourcesSame (SetSubresourceState inv t (k : Int) s) = false := by
  have hone : GetSubresourcesCount t ≠ 1 := reachable_length_ne_one hr
  have hlen : 1 < t.subresourceState.length := by
    unfold GetSubresourcesCount at hone hk
    omega
  have hcond : ¬((k : Int) = -1 ∨ t.subresourceState.length ≤ 1) := by
    simp
    omega
  unfold SetSubresourceState
  rw [if_neg hcond]
  simp [AreAllSubresourcesSame, hm]

/-- C4 witness: the no-demotion theorem applied to the concrete reachable
tracker `Initialize(2, 5, true)` then `SetSubresourceState(0, 7)`, writing
at index 0 the same value `7` held by entry 1's neighbour — the mode stays
per-subresource. -/
theorem setSubresourceState_no_demotion_witness :
    AreAllSubresourcesSame
      (SetSubresourceState 0
        (SetSubresourceState 0 (Initialize 0 (construct (0 : Nat)) 2 5 true) 0 7)
        ((0 : Nat) : Int) 5) = false :=
  setSubresourceState_no_demotion 0
    (SetSubresourceState 0 (Initialize 0 (construct (0 : Nat)) 2 5 true) 0 7)
    (Reachable.setSubresourceStep _ 0 7
      (Reachable.initStep _ 2 5 true Reachable.ctorStep ⟨rfl, by decide⟩)
      (Or.inr ⟨by decide, by decide⟩))
    (by decide) 0 (by decide) 5

/-- C5: with the `-1` sentinel index, or whenever the allocated
per-subresource table has length at most 1, `SetSubresourceState` is the
very same state transformation as `SetResourceState` — the tracker ends in
uniform mode with the given state. -/
theorem setSubresourceState_degenerate {S : Type} [DecidableEq S] (inv : S)
    (t : GPUResourceState S) (idx : Int) (s : S)
    (h : idx = -1 ∨ GetSubresourcesCount t ≤ 1) :
    SetSubresourceState inv t idx s = SetResourceState inv t s := by
  unfold SetSubresourceState
  exact if_pos h

/-- C5 witness: after `Initialize(1, 5, true)` no table is allocated
(`GetSubresourcesCount() = 0 ≤ 1`), so `SetSubresourceState(0, 7)` equals
`SetResourceState(7)`. -/
theorem setSubresourceState_degenerate_witness :
    ((0 : Int) = -1 ∨
      GetSubresourcesCount (Initialize 0 (construct (0 : Nat)) 1 5 true) ≤ 1) ∧
    SetSubresourceState 0 (Initialize 0 (construct (0 : Nat)) 1 5 true) 0 7 =
      SetResourceState 0 (Initialize 0 (construct (0 : Nat)) 1 5 true) 7 :=
  ⟨Or.inr (by decide),
    setSubresourceState_degenerate 0 _ 0 7 (Or.inr (by decide))⟩

/-- C6: releasing any tracker and re-initializing it with parameters
`(n, s0, tracking)`, `n > 0`, produces exactly the same tracker state as
initializing a freshly constructed tracker with those parameters — hence
every query and every subsequent operation sequence agrees on the two. -/
theorem release_reinitialize_eq {S : Type} [DecidableEq S] (inv : S)
    (t : GPUResourceState S) (n : Nat) (s0 : S) (tr : Bool) (hn : 0 < n) :
    Initialize inv (Release inv t) n s0 tr =
      Initialize inv (construct inv) n s0 tr := by
  unfold Initialize Release construct
  simp

/-- C6 witness: release/reinit equivalence at a promoted tracker and
parameters `(3, 9, true)`. -/
theorem release_reinitialize_eq_witness :
    0 < 3 ∧
    Initialize 0
        (Release 0 (SetSubresourceState 0
          (Initialize 0 (construct (0 : Nat)) 2 5 true) 0 7)) 3 9 true =
      Initialize 0 (construct (0 : Nat)) 3 9 true :=
  ⟨by decide,
    release_reinitialize_eq 0
      (SetSubresourceState 0 (Initialize 0 (construct (0 : Nat)) 2 5 true) 0 7)
      3 9 true (by decide)⟩

/-- C7: in uniform mode `GetSubresourceState` returns the uniform state for
every index value, in range or not — the index precondition only concerns
the per-subresource representation. -/
theorem getSubresourceState_uniform {S : Type} [DecidableEq S] (inv : S)
    (t : GPUResourceState S) (h : t.allSubresourcesSame = true) (i : Nat) :
    GetSubresourceState inv t i = t.resourceState := by
  simp [GetSubresourceState, h]

/-- C7 witness: a uniform tracker with a dormant 4-entry table read at the
far out-of-range index 100 still yields the uniform state. -/
theorem getSubresourceState_uniform_witness :
    (Initialize 0 (construct (0 : Nat)) 4 1 true).allSubresourcesSame = true ∧
    GetSubresourceState 0 (Initialize 0 (construct (0 : Nat)) 4 1 true) 100 =
      (Initialize 0 (construct (0 : Nat)) 4 1 true).resourceState :=
  ⟨by decide, getSubresourceState_uniform 0 _ (by decide) 100⟩

/-- C8: `SetResourceState(s)` is idempotent — applying it twice produces
exactly the same tracker state as applying it once, for every starting
state. -/
theorem setResourceState_idempotent {S : Type} [DecidableEq S] (inv : S)
    (t : GPUResourceState S) (s : S) :
    SetResourceState inv (SetResourceState inv t s) s =
      SetResourceState inv t s := by
  simp [SetResourceState, List.map_map, Function.comp]

/-- C9: neither `SetResourceState` nor `SetSubresourceState` (with any index,
sentinel or not) changes `GetSubresourcesCount()`; the table length moves
only through `Release` (to 0) and `Initialize`. -/
theorem subresourcesCount_frame {S : Type} [DecidableEq S] (inv : S)
    (t : GPUResourceState S) :
    (∀ s, GetSubresourcesCount (SetResourceState inv t s) =
      GetSubresourcesCount t) ∧
    (∀ idx s, GetSubresourcesCount (SetSubresourceState inv t idx s) =
      GetSubresourcesCount t) ∧
    GetSubresourcesCount (Release inv t) = 0 := by
  refine ⟨fun s => by simp [GetSubresourcesCount, SetResourceState],
    fun idx s => ?_,
    by simp [GetSubresourcesCount, Release]⟩
  unfold SetSubresourceState
  by_cases hc : idx = -1 ∨ t.subresourceState.length ≤ 1
  · rw [if_pos hc]
    simp [GetSubresourcesCount, SetResourceState]
  · rw [if_neg hc]
    cases hb : t.allSubresourcesSame <;>
      simp [GetSubresourcesCount, hb]

/-- C10: releasing a tracker that is in per-subresource mode leaves the mode
flag selecting the now-empty table, so `CheckResourceState(s)` holds
vacuously for every probe value `s` in the released state. -/
theorem checkResourceState_after_release_of_divergent {S : Type}
    [DecidableEq S] (inv : S) (t : GPUResourceState S)
    (h : t.allSubresourcesSame = false) (s : S) :
    CheckResourceState (Release inv t) s = true := by
  simp [CheckResourceState, Release, h]

/-- C10 witness: the released promoted tracker answers `true` to a probe
state `9` that was never stored anywhere. -/
theorem checkResourceState_after_release_of_divergent_witness :
    (SetSubresourceState 0 (Initialize 0 (construct (0 : Nat)) 2 5 true)
        0 7).allSubresourcesSame = false ∧
    CheckResourceState
      (Release 0 (SetSubresourceState 0
        (Initialize 0 (construct (0 : Nat)) 2 5 true) 0 7)) 9 = true :=
  ⟨by decide,
    checkResourceState_after_release_of_divergent 0 _ (by decide) 9⟩
